import Mathlib

set_option maxRecDepth 40000

/-!
Verification of the `ssec/hsrl` repository: a Jupyter notebook
(`examples/read_display_uw_hsrl_scanning.ipynb`) that downloads a sample
HSRL L1B netcdf file and plots its three measurement groups, plus a bash
wrapper that renders the notebook to HTML with `jupyter nbconvert`.

The embedding models:
  * the notebook's effectful behaviour as an explicit trace of library
    calls (`urlretrieve`, `xr.open_dataset`, hvplot renders) over a
    filesystem state, parameterised by the process environment and the
    remote server contents;
  * the cell-17 scanning pipeline (`where(..., drop=True)` twice, then
    `mean(dim=["angle", "range"], keep_attrs=True)`) over labelled data
    variables with rational coordinates;
  * the conversion script's `SCRIPTPATH` computation and the parsed
    `nbconvert` argument list, together with the documented effect of the
    `--no-input` flag on the rendered document.
-/

namespace HSRL

/-! ## Cell 1: the remote URL, the local cache path, the download step -/

/-- The remote URL of the sample L1B file (cell-1, `remote_l1b_url_str`). -/
def remote_l1b_url_str : String :=
  "https://ftp.ssec.wisc.edu/pub/incoming/bagohsrl_20230814T000000_20230815T000000_30.0s_7.5m_1.0deg_L1B_preliminary.nc"

/-- The characters of the final `/`-separated component: `acc` holds the
characters of the component read so far, reset at each separator. -/
def lastComponentAux (acc : List Char) : List Char → List Char
  | [] => acc
  | c :: cs => if c = '/' then lastComponentAux [] cs else lastComponentAux (acc ++ [c]) cs

/-- The effect of `Path(s).name`: the final path component of `s`. -/
def pathName (s : String) : String :=
  String.mk (lastComponentAux [] s.data)

/-- The process environment: a map from variable names to values. -/
def Env : Type := String → String

/-- The home directory: `Path("~/").expanduser()` resolves to it, read from the
`HOME` environment variable. -/
def homeDir (env : Env) : String := env "HOME"

/-- Cell-1's `l1b_fileP`: the local cache path,
`Path("~/").expanduser() / Path(remote_l1b_url_str).name`. -/
def l1b_fileP (env : Env) : String :=
  homeDir env ++ "/" ++ pathName remote_l1b_url_str

/-- The local filesystem: a map from paths to optional file contents. -/
structure Fs where
  file : String → Option String

/-- The presence check `Path.exists()` on the model filesystem. -/
def fileExists (fs : Fs) (p : String) : Bool := (fs.file p).isSome

/-- Writing a file: the effect of a completed `urlretrieve` on the
filesystem. -/
def writeFile (fs : Fs) (p : String) (content : String) : Fs :=
  ⟨fun q => if q = p then some content else fs.file q⟩

/-- The remote server: a map from URLs to the content served there. -/
def Remote : Type := String → String

/-! ## The notebook's library-call trace

The trace records the effectful library calls the claims are about:
the network fetch (`urllib.request.urlretrieve`), the dataset opens
(`xr.open_dataset`), and the plot renders (`hvplot`, `hvplot.quadmesh`,
`hvplot.scatter`, and the 1-D line plot of cell-11). -/

/-- Which hvplot entry point a plot render uses. -/
inductive PlotKind where
  | image
  | quadmesh
  | scatter
  | line
deriving DecidableEq

/-- One effectful library call made by the notebook. -/
inductive LibCall where
  | urlretrieve (url : String) (dest : String)
  | open_dataset (path : String) (group : String)
  | plot (kind : PlotKind) (group : String) (varName : String)
deriving DecidableEq

/-- The four geophysical variables, in the order the notebook plots them. -/
def geoVars : List String :=
  ["particulate_backscatter_532nm",
   "particulate_linear_depolarization_532nm",
   "particulate_optical_depth_532nm",
   "attenuated_color_ratio_1064nm_532nm"]

/-- The library calls of cells 3 through 17, in program order: open the
vertical stare group and plot its four geophysical variables (cells 3, 5);
open the horizontal stare group, plot its four geophysical variables and
the altitude coordinate at range 5 km (cells 7, 9, 11); open the scanning
group, plot its four geophysical variables as quadmeshes, then plot the
spatially averaged time series of the same four variables as scatter plots
(cells 13, 15, 17). -/
def restCalls (p : String) : List LibCall :=
  [LibCall.open_dataset p "vertical_stare"]
  ++ geoVars.map (fun v => LibCall.plot PlotKind.image "vertical_stare" v)
  ++ [LibCall.open_dataset p "horizontal_stare"]
  ++ geoVars.map (fun v => LibCall.plot PlotKind.image "horizontal_stare" v)
  ++ [LibCall.plot PlotKind.line "horizontal_stare" "altitude coordinate"]
  ++ [LibCall.open_dataset p "scanning"]
  ++ geoVars.map (fun v => LibCall.plot PlotKind.quadmesh "scanning" v)
  ++ geoVars.map (fun v => LibCall.plot PlotKind.scatter "scanning" v)

/-- The calls after the download step, each paired with the filesystem
state in which it runs (none of them alters the filesystem). -/
def stepsAfter (fs : Fs) (p : String) : List (Fs × LibCall) :=
  (restCalls p).map (fun c => (fs, c))

/-- The whole notebook run, as the list of library calls each paired with
the filesystem state in which it is issued.  Cell-1 checks
`l1b_fileP.exists() is False` and downloads only then; the download
writes the remote content to the cache path. -/
def runWithStates (env : Env) (remote : Remote) (fs : Fs) :
    List (Fs × LibCall) :=
  let p := l1b_fileP env
  if fileExists fs p then
    stepsAfter fs p
  else
    (fs, LibCall.urlretrieve remote_l1b_url_str p)
      :: stepsAfter (writeFile fs p (remote remote_l1b_url_str)) p

/-- The notebook run's final filesystem state and call trace. -/
def notebookRun (env : Env) (remote : Remote) (fs : Fs) :
    Fs × List LibCall :=
  let p := l1b_fileP env
  if fileExists fs p then
    (fs, (runWithStates env remote fs).map Prod.snd)
  else
    (writeFile fs p (remote remote_l1b_url_str),
     (runWithStates env remote fs).map Prod.snd)

/-! ## Concrete fixtures for witnesses and counterexamples -/

/-- A concrete environment whose home directory is `/home/u`. -/
def env0 : Env := fun v => if v = "HOME" then "/home/u" else ""

/-- A second concrete environment: same `HOME` as `env0`, every other
variable different. -/
def env0' : Env := fun v => if v = "HOME" then "/home/u" else v

/-- A concrete environment with a different home directory `/home/w`. -/
def env1 : Env := fun v => if v = "HOME" then "/home/w" else ""

/-- A concrete remote server serving the same bytes at every URL. -/
def remote0 : Remote := fun _ => "netcdf-bytes"

/-- The empty filesystem. -/
def fsEmpty : Fs := ⟨fun _ => none⟩

/-- A filesystem already holding a cached copy of the L1B file under
`env0`'s home directory. -/
def fsCached : Fs :=
  ⟨fun q => if q = l1b_fileP env0 then some "old-cached-bytes" else none⟩

/-! ## Observations on the call trace -/

/-- Whether a library call is the network fetch. -/
def isDownloadCall (c : LibCall) : Bool :=
  match c with
  | LibCall.urlretrieve _ _ => true
  | _ => false

/-- Whether a library call is an `xr.open_dataset`. -/
def isOpenCall (c : LibCall) : Bool :=
  match c with
  | LibCall.open_dataset _ _ => true
  | _ => false

/-- Whether a library call renders a plot of measurement group `g`. -/
def isPlotOfGroup (g : String) (c : LibCall) : Bool :=
  match c with
  | LibCall.plot _ g' _ => g' == g
  | _ => false

/-- How many plots of measurement group `g` a trace renders. -/
def plotCount (g : String) (t : List LibCall) : Nat :=
  (t.filter (isPlotOfGroup g)).length

/-- The variables plotted with entry point `k` for group `g`, in trace
order. -/
def plotVarsOf (k : PlotKind) (g : String) (t : List LibCall) : List String :=
  t.filterMap (fun c =>
    match c with
    | LibCall.plot k' g' v => if k' == k && g' == g then some v else none
    | _ => none)

/-! ## Error propagation

The notebook contains no `try`/`except` and the shell script no error
handling, so a failing library call aborts the run with exactly the
library's error.  `runExcept` executes a call list under an oracle that
decides, for each library call, whether it succeeds or raises. -/

/-- Executes the calls in order; the first failing call aborts the run
with the library's error, unchanged.  On success, returns the performed
calls. -/
def runExcept (oracle : LibCall → Except String Unit) :
    List LibCall → Except String (List LibCall)
  | [] => Except.ok []
  | c :: cs =>
    match oracle c with
    | Except.error e => Except.error e
    | Except.ok _ => (runExcept oracle cs).map (fun t => c :: t)

/-- The notebook executed under a failure oracle: its straight-line call
trace, run with no handler anywhere. -/
def notebookExec (env : Env) (remote : Remote) (fs : Fs)
    (oracle : LibCall → Except String Unit) : Except String (List LibCall) :=
  runExcept oracle (notebookRun env remote fs).2

/-- A concrete failure oracle: the network fetch raises, everything else
succeeds. -/
def oracleNetFail : LibCall → Except String Unit := fun c =>
  match c with
  | LibCall.urlretrieve _ _ => Except.error "URLError: network unreachable"
  | _ => Except.ok ()

/-! ## Cell 17: the scanning selection and spatial average

Cell 17 restricts the scanning dataset with two `where(..., drop=True)`
calls (distance in `distance_tpl`, then altitude in `altitude_tpl`) and
averages over the `angle` and `range` dimensions with `keep_attrs=True`.
A data variable is modelled as its cells — coordinate point paired with
value — plus its attribute list; coordinates and values are rationals. -/

/-- Cell-17's `altitude_tpl = (80 - 20, 80 + 20)`. -/
def altitude_tpl : ℚ × ℚ := (80 - 20, 80 + 20)

/-- Cell-17's `distance_tpl = (3000 - 20, 3000 + 20)`. -/
def distance_tpl : ℚ × ℚ := (3000 - 20, 3000 + 20)

/-- A coordinate point of the scanning group: the distance and altitude
coordinates attached to one (angle, range) sample. -/
structure ScanPoint where
  distance : ℚ
  altitude : ℚ
deriving DecidableEq

/-- The first `where` condition:
`(distance_tpl[0] < distance) & (distance <= distance_tpl[1])`. -/
def distanceCond (pt : ScanPoint) : Bool :=
  decide (distance_tpl.1 < pt.distance) && decide (pt.distance ≤ distance_tpl.2)

/-- The second `where` condition:
`(altitude_tpl[0] < altitude) & (altitude <= altitude_tpl[1])`. -/
def altitudeCond (pt : ScanPoint) : Bool :=
  decide (altitude_tpl.1 < pt.altitude) && decide (pt.altitude ≤ altitude_tpl.2)

/-- A labelled data variable: cells (coordinate point, value) and
attributes such as `long_name` and `units`. -/
structure DataVar where
  cells : List (ScanPoint × ℚ)
  attrs : List (String × String)

/-- The restriction `where(cond, drop=True)` on one variable: keeps exactly the cells
whose coordinates satisfy the condition; attributes ride along. -/
def whereDrop (cond : ScanPoint → Bool) (dv : DataVar) : DataVar :=
  { cells := dv.cells.filter (fun c => cond c.1), attrs := dv.attrs }

/-- A variable after `mean(dim=["angle", "range"], ...)`: the collapsed
value and the attributes the operation kept. -/
structure MeanVar where
  value : ℚ
  attrs : List (String × String)

/-- The arithmetic mean of a list of rationals. -/
def ratMean (xs : List ℚ) : ℚ := xs.sum / xs.length

/-- The reduction `mean(dim=["angle", "range"], keep_attrs=...)` on one variable:
collapses the remaining cells to their mean; keeps the attributes exactly
when `keep_attrs` is true. -/
def meanDims (keep_attrs : Bool) (dv : DataVar) : MeanVar :=
  { value := ratMean (dv.cells.map Prod.snd),
    attrs := if keep_attrs then dv.attrs else [] }

/-- A dataset: named data variables. -/
structure Dataset where
  vars : List (String × DataVar)

/-- The restriction `where(cond, drop=True)` on a whole dataset. -/
def dsWhereDrop (cond : ScanPoint → Bool) (ds : Dataset) : Dataset :=
  { vars := ds.vars.map (fun nv => (nv.1, whereDrop cond nv.2)) }

/-- The reduction `mean(dim=["angle", "range"], keep_attrs)` on a whole dataset. -/
def dsMean (keep_attrs : Bool) (ds : Dataset) :
    List (String × MeanVar) :=
  ds.vars.map (fun nv => (nv.1, meanDims keep_attrs nv.2))

/-- Cell-17's `mean_scanning_ds`: the scanning dataset restricted by the
distance interval, then by the altitude interval, then averaged over the
`angle` and `range` dimensions with `keep_attrs=True`. -/
def mean_scanning_ds (scanning_ds : Dataset) : List (String × MeanVar) :=
  dsMean true (dsWhereDrop altitudeCond (dsWhereDrop distanceCond scanning_ds))

/-! ## The conversion script

`hsrl` ships a bash wrapper that computes `SCRIPTPATH` — the physical
directory containing the script, obtained by `cd -- "$(dirname "$0")";
pwd -P` — and invokes `jupyter nbconvert --to html_ch
${SCRIPTPATH}/read_display_uw_hsrl_scanning.ipynb --no-input
--output-dir=${SCRIPTPATH}`.  Directories are modelled as component
lists from the filesystem root; `chdir` resolves the directory part of
`$0` against the working directory and normalizes `.` and `..`
components, which is what `cd` followed by `pwd -P` produces (symbolic
links aside). -/

/-- The notebook file name the script converts. -/
def scriptNotebook : String := "read_display_uw_hsrl_scanning.ipynb"

/-- One step of path normalization: `.` is dropped, `..` pops the last
component (at the root it stays at the root), anything else is pushed. -/
def normStep (acc : List String) (c : String) : List String :=
  if c = "." then acc
  else if c = ".." then acc.dropLast
  else acc ++ [c]

/-- Resolves `.` and `..` in an absolute component path. -/
def normalize (l : List String) : List String := l.foldl normStep []

/-- The effect of `cd -- dir; pwd -P`: `dir` (the directory part of `$0`) is resolved
against the working directory when relative, then normalized.  `isAbs`
says whether `$0`'s directory part was an absolute path. -/
def chdir (cwd : List String) (dir : List String) (isAbs : Bool) :
    List String :=
  normalize (if isAbs then dir else cwd ++ dir)

/-- The absolute path string of a component directory. -/
def renderPath (d : List String) : String :=
  "/" ++ String.intercalate "/" d

/-- A parsed argument of the `jupyter nbconvert` invocation. -/
inductive NbArg where
  | toFormat (fmt : String)
  | inputFile (path : String)
  | noInput
  | outputDir (dir : String)
deriving DecidableEq

/-- The `nbconvert` argument list the script builds, given the value of
`SCRIPTPATH`. -/
def nbconvertArgs (scriptpath : String) : List NbArg :=
  [NbArg.toFormat "html_ch",
   NbArg.inputFile (scriptpath ++ "/" ++ scriptNotebook),
   NbArg.noInput,
   NbArg.outputDir scriptpath]

/-- One full script run: from the invoking working directory and the
directory part of `$0`, computes `SCRIPTPATH` and builds the `nbconvert`
argument list. -/
def scriptRun (cwd : List String) (arg0dir : List String) (isAbs : Bool) :
    List NbArg :=
  nbconvertArgs (renderPath (chdir cwd arg0dir isAbs))

/-- Whether a parsed argument is the `--output-dir=` flag. -/
def isOutputDirArg (a : NbArg) : Bool :=
  match a with
  | NbArg.outputDir _ => true
  | _ => false

/-- The output directory an `nbconvert` argument list designates. -/
def outputDirOf (args : List NbArg) : Option String :=
  (args.find? isOutputDirArg).map (fun a =>
    match a with
    | NbArg.outputDir d => d
    | _ => "")

/-! ## The rendered document

`nbconvert`'s documented behaviour on a notebook: each markdown cell
contributes its text, each code cell contributes its input (unless
`--no-input` is passed) followed by its outputs. -/

/-- A notebook cell: markdown, or code with an input and outputs. -/
inductive Cell where
  | markdown (text : String)
  | code (input : String) (outputs : List String)

/-- A fragment of the rendered document. -/
inductive Frag where
  | md (text : String)
  | codeInput (text : String)
  | codeOutput (text : String)
deriving DecidableEq

/-- Whether a rendered fragment is a code-cell input. -/
def isCodeInput (f : Frag) : Bool :=
  match f with
  | Frag.codeInput _ => true
  | _ => false

/-- Renders one cell; `noInput` is whether `--no-input` was passed. -/
def renderCell (noInput : Bool) (c : Cell) : List Frag :=
  match c with
  | Cell.markdown t => [Frag.md t]
  | Cell.code inp outs =>
    (if noInput then [] else [Frag.codeInput inp]) ++ outs.map Frag.codeOutput

/-- The document `nbconvert` renders from a notebook under a parsed
argument list. -/
def nbconvertRender (args : List NbArg) (nb : List Cell) : List Frag :=
  (nb.map (renderCell (args.contains NbArg.noInput))).flatten

/-! ## Helper lemmas -/

/-- Dropping the states from the post-download steps yields the
post-download call list. -/
theorem stepsAfter_map_snd (fs : Fs) (p : String) :
    (stepsAfter fs p).map Prod.snd = restCalls p := by
  simp [stepsAfter]

/-- The notebook's call trace: the post-download calls, preceded by the
single network fetch exactly when the cache file is absent. -/
theorem notebookRun_trace (env : Env) (remote : Remote) (fs : Fs) :
    (notebookRun env remote fs).2 =
      (if fileExists fs (l1b_fileP env) then []
       else [LibCall.urlretrieve remote_l1b_url_str (l1b_fileP env)])
      ++ restCalls (l1b_fileP env) := by
  unfold notebookRun runWithStates
  cases hex : fileExists fs (l1b_fileP env) <;>
    simp [hex, stepsAfter_map_snd]

/-- The post-download calls contain no network fetch. -/
theorem restCalls_no_download (p url dest : String) :
    (restCalls p).contains (LibCall.urlretrieve url dest) = false := by
  rfl

/-- The notebook's final filesystem: unchanged when the cache file was
present, otherwise extended with the downloaded file. -/
theorem notebookRun_fst (env : Env) (remote : Remote) (fs : Fs) :
    (notebookRun env remote fs).1 =
      if fileExists fs (l1b_fileP env) then fs
      else writeFile fs (l1b_fileP env) (remote remote_l1b_url_str) := by
  simp only [notebookRun]
  cases hex : fileExists fs (l1b_fileP env) <;> simp [hex]

/-! ## Claims -/

/-- C1: the download step fetches the remote L1B file if and only if no
file exists at the local cache path, and when the local file already
exists the run leaves the filesystem (in particular that file) unchanged. -/
theorem download_iff_cache_absent (env : Env) (remote : Remote) (fs : Fs) :
    ((notebookRun env remote fs).2.contains
        (LibCall.urlretrieve remote_l1b_url_str (l1b_fileP env)) =
      !(fileExists fs (l1b_fileP env)))
    ∧ (fileExists fs (l1b_fileP env) = true → (notebookRun env remote fs).1 = fs) := by
  constructor
  · rw [notebookRun_trace]
    cases hex : fileExists fs (l1b_fileP env)
    · simp
    · exact restCalls_no_download (l1b_fileP env) remote_l1b_url_str (l1b_fileP env)
  · intro hex
    rw [notebookRun_fst, if_pos hex]

/-- Witness for C1 at a concrete cached state: the file is present and
the run leaves the filesystem unchanged. -/
theorem download_iff_cache_absent_witness :
    fileExists fsCached (l1b_fileP env0) = true
    ∧ (notebookRun env0 remote0 fsCached).1 = fsCached :=
  ⟨by decide, (download_iff_cache_absent env0 remote0 fsCached).2 (by decide)⟩

/-- Counterexample to C2: in a concrete run the scanning group is
plotted eight times (cells 15 and 17), not exactly four. -/
theorem scanning_not_four_plots :
    plotCount "scanning" (notebookRun env0 remote0 fsEmpty).2 ≠ 4 := by
  decide

/-- C2 (amended): the run ensures the data file is present, then each
group's display step renders exactly one plot per geophysical variable
(four per group); additionally the horizontal stare group gets one
altitude-coordinate line plot and the scanning group a second,
time-series plot of each geophysical variable, so the horizontal group
is plotted five times and the scanning group eight times in all. -/
theorem plots_per_group (env : Env) (remote : Remote) (fs : Fs) :
    fileExists (notebookRun env remote fs).1 (l1b_fileP env) = true
    ∧ plotVarsOf PlotKind.image "vertical_stare" (notebookRun env remote fs).2 = geoVars
    ∧ plotVarsOf PlotKind.image "horizontal_stare" (notebookRun env remote fs).2 = geoVars
    ∧ plotVarsOf PlotKind.quadmesh "scanning" (notebookRun env remote fs).2 = geoVars
    ∧ plotVarsOf PlotKind.scatter "scanning" (notebookRun env remote fs).2 = geoVars
    ∧ plotVarsOf PlotKind.line "horizontal_stare" (notebookRun env remote fs).2
        = ["altitude coordinate"]
    ∧ plotCount "vertical_stare" (notebookRun env remote fs).2 = 4
    ∧ plotCount "horizontal_stare" (notebookRun env remote fs).2 = 5
    ∧ plotCount "scanning" (notebookRun env remote fs).2 = 8 := by
  rw [notebookRun_fst, notebookRun_trace]
  cases hex : fileExists fs (l1b_fileP env)
  · exact ⟨by simp [fileExists, writeFile], rfl, rfl, rfl, rfl, rfl, rfl, rfl, rfl⟩
  · exact ⟨hex, rfl, rfl, rfl, rfl, rfl, rfl, rfl, rfl⟩

/-- Counterexample to C3: two initial filesystem states (cache absent
versus cache present) on which the notebook performs different library
call sequences. -/
theorem trace_differs_with_initial_state :
    (notebookRun env0 remote0 fsEmpty).2 ≠ (notebookRun env0 remote0 fsCached).2 := by
  decide

/-- C3 (amended): the only branching is the single download
presence-check — once the network fetch is dropped from the trace, every
initial filesystem state yields the same library call sequence. -/
theorem non_download_trace_state_independent (env : Env) (remote : Remote)
    (fs fs' : Fs) :
    (notebookRun env remote fs).2.filter (fun c => !(isDownloadCall c)) =
      (notebookRun env remote fs').2.filter (fun c => !(isDownloadCall c)) := by
  have h : ∀ b : Bool,
      List.filter (fun c => !(isDownloadCall c))
        ((if b then []
          else [LibCall.urlretrieve remote_l1b_url_str (l1b_fileP env)])) = [] := by
    intro b
    cases b <;> simp [isDownloadCall]
  rw [notebookRun_trace, notebookRun_trace, List.filter_append, List.filter_append,
    h, h]

/-- Every post-download step runs in the filesystem state it was built
with. -/
theorem stepsAfter_state (fs : Fs) (p : String) (s : Fs × LibCall)
    (hs : s ∈ stepsAfter fs p) : s.1 = fs := by
  simp only [stepsAfter, List.mem_map] at hs
  obtain ⟨c, _, rfl⟩ := hs
  rfl

/-- A freshly written file exists. -/
theorem fileExists_writeFile (fs : Fs) (p content : String) :
    fileExists (writeFile fs p content) p = true := by
  simp [fileExists, writeFile]

/-- C4: every `xr.open_dataset` call on the L1B file path runs in a
filesystem state in which that file exists — the download step, when it
runs, establishes existence before any open. -/
theorem open_only_when_file_exists (env : Env) (remote : Remote) (fs : Fs)
    (s : Fs × LibCall) (hs : s ∈ runWithStates env remote fs)
    (hopen : isOpenCall s.2 = true) :
    fileExists s.1 (l1b_fileP env) = true := by
  unfold runWithStates at hs
  by_cases hex : fileExists fs (l1b_fileP env) = true
  · rw [if_pos hex] at hs
    rw [stepsAfter_state _ _ _ hs]
    exact hex
  · rw [if_neg hex] at hs
    rcases List.mem_cons.mp hs with h | h
    · rw [h] at hopen
      simp [isOpenCall] at hopen
    · rw [stepsAfter_state _ _ _ h]
      exact fileExists_writeFile _ _ _

/-- Witness for C4: in a concrete run that starts with an empty
filesystem, the first `open_dataset` step already sees the file. -/
theorem open_only_when_file_exists_witness :
    fileExists ((runWithStates env0 remote0 fsEmpty).get ⟨1, by decide⟩).1
      (l1b_fileP env0) = true :=
  open_only_when_file_exists env0 remote0 fsEmpty _
    (List.get_mem _ 1 (by decide)) (by decide)

/-- The first failing library call aborts `runExcept` with the library's
error, unchanged. -/
theorem runExcept_propagates (oracle : LibCall → Except String Unit)
    (e : String) (t : List LibCall) :
    ∀ (i : Nat) (h : i < t.length),
      (∀ j, ∀ hj : j < i, oracle (t.get ⟨j, Nat.lt_trans hj h⟩) = Except.ok ()) →
      oracle (t.get ⟨i, h⟩) = Except.error e →
      runExcept oracle t = Except.error e := by
  induction t with
  | nil =>
    intro i h _ _
    exact absurd h (Nat.not_lt_zero i)
  | cons c cs ih =>
    intro i h hok herr
    cases i with
    | zero =>
      have hc : oracle c = Except.error e := herr
      simp [runExcept, hc]
    | succ i' =>
      have hc : oracle c = Except.ok () := hok 0 (Nat.succ_pos i')
      have hrec := ih i' (Nat.lt_of_succ_lt_succ h)
        (fun j hj => hok (j + 1) (Nat.succ_lt_succ hj)) herr
      simp [runExcept, hc, hrec, Except.map]

/-- C5: a failure raised by any underlying library call is propagated
unchanged — whenever the calls before position `i` succeed and the call
at `i` raises `e`, the whole notebook run reports exactly `e`; no call
site catches, retries, recovers from, or translates it. -/
theorem library_error_propagates (env : Env) (remote : Remote) (fs : Fs)
    (oracle : LibCall → Except String Unit) (e : String) (i : Nat)
    (h : i < (notebookRun env remote fs).2.length)
    (hok : ∀ j, ∀ hj : j < i,
      oracle ((notebookRun env remote fs).2.get ⟨j, Nat.lt_trans hj h⟩) =
        Except.ok ())
    (herr : oracle ((notebookRun env remote fs).2.get ⟨i, h⟩) = Except.error e) :
    notebookExec env remote fs oracle = Except.error e :=
  runExcept_propagates oracle e _ i h hok herr

/-- Witness for C5: under an oracle whose network fetch raises, a
concrete run on an empty filesystem reports the network error verbatim. -/
theorem library_error_propagates_witness :
    notebookExec env0 remote0 fsEmpty oracleNetFail =
      Except.error "URLError: network unreachable" :=
  library_error_propagates env0 remote0 fsEmpty oracleNetFail _ 0 (by decide)
    (fun j hj => absurd hj (Nat.not_lt_zero j)) rfl

/-- Counterexample to C6: two runs that differ only in the `HOME`
environment variable perform different library calls (the fetch writes
to a different destination path). -/
theorem trace_differs_with_home :
    (notebookRun env0 remote0 fsEmpty).2 ≠ (notebookRun env1 remote0 fsEmpty).2 := by
  decide

/-- C6 (amended): the notebook's behaviour depends on the environment
only through `HOME` (the cache path is `HOME`-relative, via
`Path("~/").expanduser()`) — two runs agreeing on `HOME` read and write
the same paths and perform the same library calls. -/
theorem behaviour_depends_only_on_home (env env' : Env) (remote : Remote)
    (fs : Fs) (h : env "HOME" = env' "HOME") :
    notebookRun env remote fs = notebookRun env' remote fs
    ∧ runWithStates env remote fs = runWithStates env' remote fs := by
  have hp : l1b_fileP env = l1b_fileP env' := by
    unfold l1b_fileP homeDir
    rw [h]
  constructor
  · unfold notebookRun runWithStates
    rw [hp]
  · unfold runWithStates
    rw [hp]

/-- Witness for C6 (amended): two concrete environments with the same
`HOME` but every other variable different yield identical runs. -/
theorem behaviour_depends_only_on_home_witness :
    notebookRun env0 remote0 fsEmpty = notebookRun env0' remote0 fsEmpty
    ∧ runWithStates env0 remote0 fsEmpty = runWithStates env0' remote0 fsEmpty :=
  behaviour_depends_only_on_home env0 env0' remote0 fsEmpty (by decide)

/-- C7: the conversion script writes the HTML rendering to a fixed
output directory — the `--output-dir=` argument always names
`SCRIPTPATH`, the resolved physical directory containing the script, so
any two invocations from different working directories that resolve to
the same script directory build identical `nbconvert` invocations. -/
theorem output_dir_is_script_dir (cwd cwd' arg0dir arg0dir' : List String)
    (a a' : Bool) (h : chdir cwd arg0dir a = chdir cwd' arg0dir' a') :
    outputDirOf (scriptRun cwd arg0dir a) =
      some (renderPath (chdir cwd arg0dir a))
    ∧ scriptRun cwd arg0dir a = scriptRun cwd' arg0dir' a' := by
  constructor
  · rfl
  · unfold scriptRun
    rw [h]

/-- Witness for C7: invoking the script as `../x.sh` from `/home/u` and
by absolute path from `/tmp` resolves to the same script directory
`/home` and produces the same invocation, whose output directory is
`/home`. -/
theorem output_dir_is_script_dir_witness :
    outputDirOf (scriptRun ["home", "u"] [".."] false) = some "/home"
    ∧ scriptRun ["home", "u"] [".."] false = scriptRun ["tmp"] ["home"] true :=
  output_dir_is_script_dir ["home", "u"] ["tmp"] [".."] ["home"] false true
    (by decide)

/-- C8: a cell of the scanning data survives the two `where(...,
drop=True)` restrictions — and so enters the spatial average — exactly
when its distance lies in the half-open interval (2980, 3020] and its
altitude in (60, 100]; the lower bounds are excluded, the upper bounds
included. -/
theorem scanning_selection_bounds (dv : DataVar) (c : ScanPoint × ℚ) :
    (c ∈ (whereDrop altitudeCond (whereDrop distanceCond dv)).cells ↔
      c ∈ dv.cells ∧ (2980 : ℚ) < c.1.distance ∧ c.1.distance ≤ 3020 ∧
        (60 : ℚ) < c.1.altitude ∧ c.1.altitude ≤ 100)
    ∧ distanceCond ⟨2980, 80⟩ = false ∧ distanceCond ⟨3020, 80⟩ = true
    ∧ altitudeCond ⟨3000, 60⟩ = false ∧ altitudeCond ⟨3000, 100⟩ = true := by
  refine ⟨?_,
    by simp [distanceCond, distance_tpl]; norm_num,
    by simp [distanceCond, distance_tpl]; norm_num,
    by simp [altitudeCond, altitude_tpl]; norm_num,
    by simp [altitudeCond, altitude_tpl]; norm_num⟩
  simp only [whereDrop, List.mem_filter, distanceCond, altitudeCond,
    distance_tpl, altitude_tpl, Bool.and_eq_true, decide_eq_true_eq]
  norm_num
  tauto

/-- C9: the spatial averaging pipeline of cell 17 — the two `where`
restrictions followed by `mean(dim=["angle", "range"],
keep_attrs=True)` — leaves every variable's attribute list unchanged. -/
theorem mean_keeps_attrs (scanning_ds : Dataset) :
    (mean_scanning_ds scanning_ds).map (fun nv => (nv.1, nv.2.attrs)) =
      scanning_ds.vars.map (fun nv => (nv.1, nv.2.attrs)) := by
  unfold mean_scanning_ds dsMean dsWhereDrop
  rw [List.map_map, List.map_map, List.map_map]
  rfl

/-- Rendering with `--no-input` in force produces no code-input
fragment. -/
theorem render_true_no_input (nb : List Cell) :
    ((nb.map (renderCell true)).flatten).all (fun f => !(isCodeInput f)) = true := by
  induction nb with
  | nil => rfl
  | cons c cs ih =>
    cases c with
    | markdown t =>
      simpa [renderCell, isCodeInput] using ih
    | code inp outs =>
      simp only [List.map_cons, List.flatten_cons, List.all_append, ih,
        Bool.and_true, renderCell, List.nil_append, List.all_map]
      simp [isCodeInput]

/-- C10: the script always passes `--no-input` to `nbconvert`, so for
every notebook the rendered document contains no code-cell input — only
markdown and cell outputs appear. -/
theorem rendered_doc_excludes_inputs (cwd arg0dir : List String) (a : Bool)
    (nb : List Cell) :
    (scriptRun cwd arg0dir a).contains NbArg.noInput = true
    ∧ (nbconvertRender (scriptRun cwd arg0dir a) nb).all
        (fun f => !(isCodeInput f)) = true :=
  ⟨rfl, render_true_no_input nb⟩

end HSRL
